import Mathlib

/-!
Shallow embedding of the WebGL panorama renderer (`window.Panorama`).

The constructor builds a UV sphere (vertex and index lists), uploads them
to GPU buffers, allocates one texture handle and records the index count.
`setImage` loads an image asynchronously; its load handler uploads the
texture and its error handler rejects the promise.  `render` checks
`imgElement`, and if set emits a fixed sequence of GL calls ending in one
indexed draw call.
-/

namespace Panorama

/-- One vertex as pushed by the vertex loop of the constructor:
`panoVerts.push(x*radius, y*radius, z*radius, u, v)`. -/
structure Vertex where
  x : ℝ
  y : ℝ
  z : ℝ
  u : ℝ
  v : ℝ

/-- Body of the vertex double loop (source lines 66–83): spherical angles
`theta = i*π/latSegments`, `phi = j*2π/lonSegments`, cartesian position
scaled by `radius`, equirectangular texture coordinates. -/
noncomputable def mkVertex (radius : ℝ) (latSegments lonSegments i j : ℕ) : Vertex :=
  let theta : ℝ := i * Real.pi / latSegments
  let sinTheta := Real.sin theta
  let cosTheta := Real.cos theta
  let phi : ℝ := j * 2 * Real.pi / lonSegments
  let sinPhi := Real.sin phi
  let cosPhi := Real.cos phi
  let x := sinPhi * sinTheta
  let y := cosTheta
  let z := -cosPhi * sinTheta
  let u : ℝ := j / lonSegments
  let v : ℝ := i / latSegments
  ⟨x * radius, y * radius, z * radius, u, v⟩

/-- The vertex list built by the double loop
`for i in [0..latSegments], for j in [0..lonSegments]`. -/
noncomputable def panoVerts (radius : ℝ) (latSegments lonSegments : ℕ) : List Vertex :=
  (List.range (latSegments + 1)).flatMap fun i =>
    (List.range (lonSegments + 1)).map fun j =>
      mkVertex radius latSegments lonSegments i j

/-- The index list built by the index double loop (source lines 87–98):
for each quad cell `(i, j)` push the six indices
`index0, index1, index0+1, index1, index1+1, index0+1`. -/
def panoIndices (latSegments lonSegments : ℕ) : List ℕ :=
  (List.range latSegments).flatMap fun i =>
    let offset0 := i * (lonSegments + 1)
    let offset1 := (i + 1) * (lonSegments + 1)
    (List.range lonSegments).flatMap fun j =>
      let index0 := offset0 + j
      let index1 := offset1 + j
      [index0, index1, index0 + 1, index1, index1 + 1, index0 + 1]

lemma length_flatMap_const {β : Type} (f : ℕ → List β) (c n : ℕ)
    (h : ∀ i, (f i).length = c) :
    ((List.range n).flatMap f).length = n * c := by
  induction n with
  | zero => simp
  | succ k ih =>
    rw [List.range_succ, List.flatMap_append]
    simp [ih, h, Nat.succ_mul]

lemma panoVerts_length (radius : ℝ) (L N : ℕ) :
    (panoVerts radius L N).length = (L + 1) * (N + 1) := by
  unfold panoVerts
  exact length_flatMap_const _ _ _ (fun i => by simp)

lemma panoIndices_length (L N : ℕ) :
    (panoIndices L N).length = 6 * L * N := by
  unfold panoIndices
  rw [length_flatMap_const _ (N * 6) _ (fun i => length_flatMap_const _ 6 _ (fun j => by simp))]
  ring

lemma panoIndices_mem_bound {L N k : ℕ} (hk : k ∈ panoIndices L N) :
    k < (L + 1) * (N + 1) := by
  unfold panoIndices at hk
  simp only [List.mem_flatMap, List.mem_range, List.mem_cons, List.not_mem_nil, or_false]
    at hk
  obtain ⟨i, hi, j, hj, hcase⟩ := hk
  have h1 : (i + 1) * (N + 1) ≤ L * (N + 1) :=
    Nat.mul_le_mul_right _ hi
  have h2 : (L + 1) * (N + 1) = L * (N + 1) + (N + 1) := by ring
  have hlow : i * (N + 1) ≤ (i + 1) * (N + 1) :=
    Nat.mul_le_mul_right _ (Nat.le_succ i)
  rcases hcase with h | h | h | h | h | h <;> omega

/-- GL buffer binding targets used by the renderer. -/
inductive BufferTarget where
  | arrayBuffer
  | elementArrayBuffer
deriving DecidableEq

/-- Uniform slots of the linked shader program (`glProgram.uniform`). -/
inductive Uniform where
  | projectionMat
  | modelViewMat
  | diffuse
deriving DecidableEq

/-- GL scalar type constants appearing in the calls of the renderer. -/
inductive GLType where
  | float
  | unsignedShort
  | unsignedByte
deriving DecidableEq

/-- Draw primitive mode (only `TRIANGLES` is used). -/
inductive DrawMode where
  | triangles
deriving DecidableEq

/-- Pixel format constants (only `RGB` is used). -/
inductive PixelFormat where
  | rgb
deriving DecidableEq

/-- Texture parameter names set by the load handler. -/
inductive TexParamName where
  | magFilter
  | minFilter
  | wrapS
  | wrapT
deriving DecidableEq

/-- Texture parameter values set by the load handler. -/
inductive TexParamValue where
  | linear
  | clampToEdge
deriving DecidableEq

/-- One call on the graphics context, as issued by the renderer.  `Mat` is
the type of 4×4 matrices handed to `render`; `Img` the type of decoded
images. -/
inductive GLCmd (Mat Img : Type) where
  | createTexture (handle : ℕ)
  | createBuffer (handle : ℕ)
  | bindBuffer (target : BufferTarget) (handle : ℕ)
  | bufferDataF32 (target : BufferTarget) (data : List ℝ)
  | bufferDataU16 (target : BufferTarget) (data : List ℕ)
  | useProgram
  | uniformMatrix4fv (slot : Uniform) (transpose : Bool) (m : Mat)
  | uniform1i (slot : Uniform) (value : ℕ)
  | enableVertexAttribArray (location : ℕ)
  | vertexAttribPointer (location size : ℕ) (type : GLType) (normalized : Bool)
      (stride offset : ℕ)
  | activeTexture (unit : ℕ)
  | bindTexture (handle : ℕ)
  | texImage2D (level : ℕ) (internalFormat format : PixelFormat) (type : GLType) (img : Img)
  | texParameteri (pname : TexParamName) (value : TexParamValue)
  | drawElements (mode : DrawMode) (count : ℕ) (type : GLType) (offset : ℕ)

/-- The mutable fields of a `Panorama` instance (the `gl` handle and the
immutable linked program are modelled globally). -/
structure PanoState (Img : Type) where
  texture : ℕ
  vertBuffer : ℕ
  indexBuffer : ℕ
  indexCount : ℕ
  imgElement : Option Img

/-- Construction constant `latSegments = 40`. -/
def latSegments : ℕ := 40

/-- Construction constant `lonSegments = 40`. -/
def lonSegments : ℕ := 40

/-- Construction constant `radius = 2` (2 meter radius sphere). -/
noncomputable def radius : ℝ := 2

/-- Flat vertex buffer content: five floats per vertex, as pushed by the
vertex loop and uploaded via `new Float32Array(panoVerts)`. -/
noncomputable def panoVertsFlat (r : ℝ) (L N : ℕ) : List ℝ :=
  (panoVerts r L N).flatMap fun w => [w.x, w.y, w.z, w.u, w.v]

/-- Attribute location bound for `position` by `bindAttribLocation`. -/
def attribPosition : ℕ := 0

/-- Attribute location bound for `texCoord` by `bindAttribLocation`. -/
def attribTexCoord : ℕ := 1

/-- State of a freshly constructed `Panorama`: texture handle allocated
first, then the two buffers; `indexCount = panoIndices.length`; no image. -/
def initState (Img : Type) : PanoState Img :=
  { texture := 0
    vertBuffer := 1
    indexBuffer := 2
    indexCount := (panoIndices latSegments lonSegments).length
    imgElement := none }

/-- Graphics-context calls issued by the constructor (texture allocation,
buffer allocation and upload).  The index data is truncated to 16 bits by
`new Uint16Array(panoIndices)`. -/
noncomputable def initTrace (Mat Img : Type) : List (GLCmd Mat Img) :=
  [ .createTexture 0,
    .createBuffer 1,
    .bindBuffer .arrayBuffer 1,
    .bufferDataF32 .arrayBuffer (panoVertsFlat radius latSegments lonSegments),
    .createBuffer 2,
    .bindBuffer .elementArrayBuffer 2,
    .bufferDataU16 .elementArrayBuffer
      ((panoIndices latSegments lonSegments).map fun k => k % 65536) ]

/-- Settlement of the promise returned by `setImage`. -/
inductive Outcome (Img : Type) where
  | resolved (img : Img)
  | rejected (msg : String)
deriving DecidableEq

/-- Effect of the `load` event handler inside `setImage`: store the image,
upload it to the already-allocated texture, set filtering and wrapping,
resolve the promise with the image. -/
def setImageLoad (Mat : Type) {Img : Type} (s : PanoState Img) (img : Img) :
    PanoState Img × List (GLCmd Mat Img) × Outcome Img :=
  ({ s with imgElement := some img },
   [ .bindTexture s.texture,
     .texImage2D 0 .rgb .rgb .unsignedByte img,
     .texParameteri .magFilter .linear,
     .texParameteri .minFilter .linear,
     .texParameteri .wrapS .clampToEdge,
     .texParameteri .wrapT .clampToEdge ],
   .resolved img)

/-- Effect of the `error` event handler inside `setImage`: no state change,
no graphics call, the promise rejects with the message of the event. -/
def setImageError (Mat : Type) {Img : Type} (s : PanoState Img) (msg : String) :
    PanoState Img × List (GLCmd Mat Img) × Outcome Img :=
  (s, [], .rejected msg)

/-- `Panorama.prototype.render`: early return when `imgElement` is unset,
otherwise use the program, upload the two matrices, bind buffers, set up
attributes, bind the texture to unit 0 and issue one indexed draw. -/
def render {Mat Img : Type} (s : PanoState Img) (projectionMat modelViewMat : Mat) :
    PanoState Img × List (GLCmd Mat Img) :=
  match s.imgElement with
  | none => (s, [])
  | some _ =>
    (s,
     [ .useProgram,
       .uniformMatrix4fv .projectionMat false projectionMat,
       .uniformMatrix4fv .modelViewMat false modelViewMat,
       .bindBuffer .arrayBuffer s.vertBuffer,
       .bindBuffer .elementArrayBuffer s.indexBuffer,
       .enableVertexAttribArray attribPosition,
       .enableVertexAttribArray attribTexCoord,
       .vertexAttribPointer attribPosition 3 .float false 20 0,
       .vertexAttribPointer attribTexCoord 2 .float false 20 12,
       .activeTexture 0,
       .uniform1i .diffuse 0,
       .bindTexture s.texture,
       .drawElements .triangles s.indexCount .unsignedShort 0 ])

/-- Externally observable events hitting a `Panorama` instance after
construction: a pending image load fires its `load` or `error` handler, or
the host calls `render`. -/
inductive Event (Mat Img : Type) where
  | loadSuccess (img : Img)
  | loadError (msg : String)
  | renderCall (projectionMat modelViewMat : Mat)

/-- Effect of one event on the instance state, with its trace. -/
def step {Mat Img : Type} (s : PanoState Img) :
    Event Mat Img → PanoState Img × List (GLCmd Mat Img)
  | .loadSuccess img => ((setImageLoad Mat s img).1, (setImageLoad Mat s img).2.1)
  | .loadError msg => ((setImageError Mat s msg).1, (setImageError Mat s msg).2.1)
  | .renderCall p v => render s p v

/-- Run a sequence of events, keeping only the final state. -/
def runEvents {Mat Img : Type} (s : PanoState Img) (es : List (Event Mat Img)) :
    PanoState Img :=
  es.foldl (fun t e => (step t e).1) s

/-- Recognizer for texture allocation calls. -/
def isCreateTexture {Mat Img : Type} : GLCmd Mat Img → Bool
  | .createTexture _ => true
  | _ => false

/-- Recognizer for draw calls. -/
def isDrawCall {Mat Img : Type} : GLCmd Mat Img → Bool
  | .drawElements _ _ _ _ => true
  | _ => false

/-- The draw calls contained in a trace, in order. -/
def drawCalls {Mat Img : Type} (t : List (GLCmd Mat Img)) : List (GLCmd Mat Img) :=
  t.filter isDrawCall

lemma render_fst {Mat Img : Type} (s : PanoState Img) (p v : Mat) :
    (render s p v).1 = s := by
  cases hs : s.imgElement <;> simp [render, hs]

lemma render_none {Mat Img : Type} (s : PanoState Img) (p v : Mat)
    (hs : s.imgElement = none) : render s p v = (s, []) := by
  simp [render, hs]

lemma render_some {Mat Img : Type} (s : PanoState Img) (p v : Mat) (img : Img)
    (hs : s.imgElement = some img) :
    (render s p v).2 =
      [ .useProgram,
        .uniformMatrix4fv .projectionMat false p,
        .uniformMatrix4fv .modelViewMat false v,
        .bindBuffer .arrayBuffer s.vertBuffer,
        .bindBuffer .elementArrayBuffer s.indexBuffer,
        .enableVertexAttribArray attribPosition,
        .enableVertexAttribArray attribTexCoord,
        .vertexAttribPointer attribPosition 3 .float false 20 0,
        .vertexAttribPointer attribTexCoord 2 .float false 20 12,
        .activeTexture 0,
        .uniform1i .diffuse 0,
        .bindTexture s.texture,
        .drawElements .triangles s.indexCount .unsignedShort 0 ] := by
  simp [render, hs]

lemma step_preserves_fields {Mat Img : Type} (s : PanoState Img) (e : Event Mat Img) :
    (step s e).1.texture = s.texture ∧ (step s e).1.vertBuffer = s.vertBuffer ∧
    (step s e).1.indexBuffer = s.indexBuffer ∧ (step s e).1.indexCount = s.indexCount := by
  cases e with
  | loadSuccess img => simp [step, setImageLoad]
  | loadError msg => simp [step, setImageError]
  | renderCall p v => rw [step, render_fst]; exact ⟨rfl, rfl, rfl, rfl⟩

lemma runEvents_preserves_fields {Mat Img : Type} (es : List (Event Mat Img))
    (s : PanoState Img) :
    (runEvents s es).texture = s.texture ∧ (runEvents s es).vertBuffer = s.vertBuffer ∧
    (runEvents s es).indexBuffer = s.indexBuffer ∧
    (runEvents s es).indexCount = s.indexCount := by
  induction es generalizing s with
  | nil => exact ⟨rfl, rfl, rfl, rfl⟩
  | cons e rest ih =>
    have h1 := step_preserves_fields s e
    have h2 := ih (step s e).1
    simp only [runEvents, List.foldl_cons] at h2 ⊢
    omega

lemma step_no_success {Mat Img : Type} (s : PanoState Img) (e : Event Mat Img)
    (h : ∀ img, e ≠ Event.loadSuccess img) : (step s e).1 = s := by
  cases e with
  | loadSuccess img => exact absurd rfl (h img)
  | loadError msg => rfl
  | renderCall p v => exact render_fst s p v

lemma runEvents_no_success {Mat Img : Type} (es : List (Event Mat Img))
    (s : PanoState Img) (h : ∀ img, Event.loadSuccess img ∉ es) :
    runEvents s es = s := by
  induction es generalizing s with
  | nil => rfl
  | cons e rest ih =>
    have he : (step s e).1 = s := by
      refine step_no_success s e fun img himg => ?_
      exact h img (himg ▸ List.mem_cons_self e rest)
    have hrest : ∀ img, Event.loadSuccess img ∉ rest := by
      intro img hmem
      exact h img (List.mem_cons_of_mem e hmem)
    simp only [runEvents, List.foldl_cons]
    rw [he]
    exact ih s hrest

/-- C1: for every `latSegments = L ≥ 1` and `lonSegments = N ≥ 1`, the
sphere-building loop yields `(L+1)*(N+1)` vertices and `6*L*N` indices, and
every emitted index is strictly below the vertex count. -/
theorem C1_mesh_counts (r : ℝ) (L N : ℕ) (hL : 1 ≤ L) (hN : 1 ≤ N) :
    (panoVerts r L N).length = (L + 1) * (N + 1) ∧
    (panoIndices L N).length = 6 * L * N ∧
    ∀ k ∈ panoIndices L N, k < (panoVerts r L N).length := by
  refine ⟨panoVerts_length r L N, panoIndices_length L N, fun k hk => ?_⟩
  rw [panoVerts_length]
  exact panoIndices_mem_bound hk

/-- Witness for C1 at `L = N = 2`, radius 2. -/
theorem C1_mesh_counts_witness :
    ((1 : ℕ) ≤ 2) ∧
    ((panoVerts 2 2 2).length = (2 + 1) * (2 + 1) ∧
     (panoIndices 2 2).length = 6 * 2 * 2 ∧
     ∀ k ∈ panoIndices 2 2, k < (panoVerts 2 2 2).length) :=
  ⟨by decide, C1_mesh_counts 2 2 2 (by decide) (by decide)⟩

/-- C2: if no image-load event has ever fired, `render` on the resulting
state issues no graphics calls at all — in particular zero draw calls —
for any pair of matrices, and returns without error. -/
theorem C2_render_noop_before_load {Mat Img : Type} (es : List (Event Mat Img))
    (p v : Mat) (h : ∀ img, Event.loadSuccess img ∉ es) :
    (render (runEvents (initState Img) es) p v).2 = [] ∧
    drawCalls (render (runEvents (initState Img) es) p v).2 = [] := by
  have hs : runEvents (initState Img) es = initState Img :=
    runEvents_no_success es _ h
  rw [hs]
  have hnone : (initState Img).imgElement = none := rfl
  rw [render_none _ _ _ hnone]
  exact ⟨rfl, rfl⟩

/-- Witness for C2 with the empty history and concrete matrices. -/
theorem C2_render_noop_before_load_witness :
    (∀ img : ℕ, Event.loadSuccess img ∉ ([] : List (Event ℕ ℕ))) ∧
    ((render (runEvents (initState ℕ) ([] : List (Event ℕ ℕ))) 0 1).2 = [] ∧
     drawCalls (render (runEvents (initState ℕ) ([] : List (Event ℕ ℕ))) 0 1).2 = []) :=
  ⟨fun _ hmem => absurd hmem (List.not_mem_nil _),
   C2_render_noop_before_load [] 0 1 (fun _ hmem => absurd hmem (List.not_mem_nil _))⟩

/-- C4: a failed image load rejects the promise with the failure reason and
changes nothing; when no load ever succeeded, the state is still without a
texture (Uninitialized) and a subsequent `render` is a no-op. -/
theorem C4_load_failure {Mat Img : Type} (es : List (Event Mat Img)) (msg : String)
    (p v : Mat) (h : ∀ img, Event.loadSuccess img ∉ es) :
    (setImageError Mat (runEvents (initState Img) es) msg).2.2 = Outcome.rejected msg ∧
    (setImageError Mat (runEvents (initState Img) es) msg).1 =
      runEvents (initState Img) es ∧
    (setImageError Mat (runEvents (initState Img) es) msg).1.imgElement = none ∧
    (render (setImageError Mat (runEvents (initState Img) es) msg).1 p v).2 = [] := by
  have hs : runEvents (initState Img) es = initState Img :=
    runEvents_no_success es _ h
  rw [hs]
  refine ⟨rfl, rfl, rfl, ?_⟩
  have hnone : (setImageError Mat (initState Img) msg).1.imgElement = none := rfl
  rw [render_none _ _ _ hnone]

/-- Witness for C4 with the empty history. -/
theorem C4_load_failure_witness :
    (∀ img : ℕ, Event.loadSuccess img ∉ ([] : List (Event ℕ ℕ))) ∧
    ((setImageError ℕ (runEvents (initState ℕ) ([] : List (Event ℕ ℕ))) ("boom")).2.2 =
        Outcome.rejected ("boom") ∧
     (setImageError ℕ (runEvents (initState ℕ) ([] : List (Event ℕ ℕ))) ("boom")).1 =
        runEvents (initState ℕ) ([] : List (Event ℕ ℕ)) ∧
     (setImageError ℕ (runEvents (initState ℕ) ([] : List (Event ℕ ℕ)))
        ("boom")).1.imgElement = none ∧
     (render (setImageError ℕ (runEvents (initState ℕ) ([] : List (Event ℕ ℕ)))
        ("boom")).1 0 1).2 = []) :=
  ⟨fun _ hmem => absurd hmem (List.not_mem_nil _),
   C4_load_failure [] ("boom") 0 1 (fun _ hmem => absurd hmem (List.not_mem_nil _))⟩

/-- C5: `render` leaves the instance state unchanged, and calling it again
from the resulting state with the same matrices produces the identical
result, state and graphics-call sequence alike. -/
theorem C5_render_pure {Mat Img : Type} (s : PanoState Img) (p v : Mat) :
    (render s p v).1 = s ∧
    render ((render s p v).1) p v = render s p v := by
  refine ⟨render_fst s p v, ?_⟩
  rw [render_fst]

/-- C9: with `latSegments = lonSegments = 40` every emitted index is at
most 1680, so the 16-bit truncation performed by `new Uint16Array` keeps it
unchanged, and the element buffer uploaded at construction holds exactly
the emitted index list. -/
theorem C9_indices_fit_uint16 (k : ℕ) (hk : k ∈ panoIndices 40 40) :
    k ≤ 1680 ∧ k % 65536 = k ∧
    GLCmd.bufferDataU16 BufferTarget.elementArrayBuffer (panoIndices 40 40)
      ∈ initTrace ℕ ℕ := by
  have hb : k < (40 + 1) * (40 + 1) := panoIndices_mem_bound hk
  have hle : k ≤ 1680 := by omega
  refine ⟨hle, Nat.mod_eq_of_lt (by omega), ?_⟩
  have hmap : (panoIndices latSegments lonSegments).map (fun n => n % 65536) =
      panoIndices latSegments lonSegments := by
    conv_rhs => rw [← List.map_id (panoIndices latSegments lonSegments)]
    refine List.map_congr_left fun a ha => ?_
    have : a < (40 + 1) * (40 + 1) := panoIndices_mem_bound ha
    exact Nat.mod_eq_of_lt (by omega)
  unfold initTrace
  rw [hmap]
  simp [latSegments, lonSegments]

/-- Witness for C9 at the first emitted index. -/
theorem C9_indices_fit_uint16_witness :
    (0 ∈ panoIndices 40 40) ∧
    ((0 : ℕ) ≤ 1680 ∧ (0 : ℕ) % 65536 = 0 ∧
     GLCmd.bufferDataU16 BufferTarget.elementArrayBuffer (panoIndices 40 40)
       ∈ initTrace ℕ ℕ) :=
  ⟨by decide, C9_indices_fit_uint16 0 (by decide)⟩

/-- C10: a failed load issues no graphics call and leaves the whole state,
including `imgElement`, unchanged; so if an image had already loaded, the
instance stays Ready and `render` still issues the draw for it. -/
theorem C10_failed_load_keeps_ready {Mat Img : Type} (s : PanoState Img) (img : Img)
    (msg : String) (p v : Mat) (h : s.imgElement = some img) :
    (setImageError Mat s msg).2.1 = [] ∧
    (setImageError Mat s msg).1 = s ∧
    (setImageError Mat s msg).1.imgElement = some img ∧
    render ((setImageError Mat s msg).1) p v = render s p v ∧
    GLCmd.drawElements DrawMode.triangles s.indexCount GLType.unsignedShort 0
      ∈ (render s p v).2 := by
  refine ⟨rfl, rfl, h, rfl, ?_⟩
  rw [render_some s p v img h]
  simp

/-- Witness for C10 at a concrete Ready state. -/
theorem C10_failed_load_keeps_ready_witness :
    (PanoState.mk 0 1 2 6 (some 7) : PanoState ℕ).imgElement = some 7 ∧
    ((setImageError ℕ (PanoState.mk 0 1 2 6 (some 7)) ("boom")).2.1 = [] ∧
     (setImageError ℕ (PanoState.mk 0 1 2 6 (some 7)) ("boom")).1 =
       (PanoState.mk 0 1 2 6 (some 7) : PanoState ℕ) ∧
     (setImageError ℕ (PanoState.mk 0 1 2 6 (some 7)) ("boom")).1.imgElement = some 7 ∧
     render ((setImageError ℕ (PanoState.mk 0 1 2 6 (some 7)) ("boom")).1) (3 : ℕ) 4 =
       render (PanoState.mk 0 1 2 6 (some 7)) 3 4 ∧
     GLCmd.drawElements DrawMode.triangles
       (PanoState.mk 0 1 2 6 (some 7) : PanoState ℕ).indexCount GLType.unsignedShort 0
       ∈ (render (PanoState.mk 0 1 2 6 (some 7)) (3 : ℕ) 4).2) :=
  ⟨rfl, C10_failed_load_keeps_ready (PanoState.mk 0 1 2 6 (some 7)) 7 ("boom") 3 4 rfl⟩

/-- C3: once a load has succeeded, each `render` uploads its own projection
matrix and the given view matrix and issues exactly one indexed draw call
covering the full recorded index range; two sequential calls with `Pl`,
`Pr` and a shared `V` each do so, with the same index count. -/
theorem C3_render_after_load {Mat Img : Type} (es : List (Event Mat Img)) (img : Img)
    (Pl Pr V : Mat) :
    let s1 := (setImageLoad Mat (runEvents (initState Img) es) img).1
    let t1 := (render s1 Pl V).2
    let t2 := (render ((render s1 Pl V).1) Pr V).2
    GLCmd.uniformMatrix4fv Uniform.projectionMat false Pl ∈ t1 ∧
    GLCmd.uniformMatrix4fv Uniform.modelViewMat false V ∈ t1 ∧
    GLCmd.uniformMatrix4fv Uniform.projectionMat false Pr ∈ t2 ∧
    GLCmd.uniformMatrix4fv Uniform.modelViewMat false V ∈ t2 ∧
    drawCalls t1 =
      [GLCmd.drawElements DrawMode.triangles s1.indexCount GLType.unsignedShort 0] ∧
    drawCalls t2 = drawCalls t1 ∧
    s1.indexCount = (initState Img).indexCount := by
  intro s1 t1 t2
  have hs1 : s1.imgElement = some img := rfl
  have hfst : (render s1 Pl V).1 = s1 := render_fst s1 Pl V
  have h1 := render_some s1 Pl V img hs1
  have h2 := render_some s1 Pr V img hs1
  have ht2 : t2 = (render s1 Pr V).2 := by
    show (render ((render s1 Pl V).1) Pr V).2 = _
    rw [hfst]
  refine ⟨?_, ?_, ?_, ?_, ?_, ?_, ?_⟩
  · rw [show t1 = (render s1 Pl V).2 from rfl, h1]; simp
  · rw [show t1 = (render s1 Pl V).2 from rfl, h1]; simp
  · rw [ht2, h2]; simp
  · rw [ht2, h2]; simp
  · rw [show t1 = (render s1 Pl V).2 from rfl, h1]
    simp [drawCalls, isDrawCall]
  · rw [ht2, h2, show t1 = (render s1 Pl V).2 from rfl, h1]
    simp [drawCalls, isDrawCall]
  · exact (runEvents_preserves_fields es (initState Img)).2.2.2

/-- C6: every vertex produced by the sphere-building loop lies exactly on
the sphere of the construction radius: `x² + y² + z² = radius²` (exact in
the real-number idealization of the floating-point arithmetic). -/
theorem C6_vertices_on_sphere (r : ℝ) (L N : ℕ) (w : Vertex)
    (hw : w ∈ panoVerts r L N) :
    w.x ^ 2 + w.y ^ 2 + w.z ^ 2 = r ^ 2 := by
  unfold panoVerts at hw
  simp only [List.mem_flatMap, List.mem_map, List.mem_range] at hw
  obtain ⟨i, hi, j, hj, rfl⟩ := hw
  have hx : (mkVertex r L N i j).x =
      Real.sin ((j : ℝ) * 2 * Real.pi / N) * Real.sin ((i : ℝ) * Real.pi / L) * r := rfl
  have hy : (mkVertex r L N i j).y = Real.cos ((i : ℝ) * Real.pi / L) * r := rfl
  have hz : (mkVertex r L N i j).z =
      -Real.cos ((j : ℝ) * 2 * Real.pi / N) * Real.sin ((i : ℝ) * Real.pi / L) * r := rfl
  rw [hx, hy, hz]
  have h1 := Real.sin_sq_add_cos_sq ((j : ℝ) * 2 * Real.pi / N)
  have h2 := Real.sin_sq_add_cos_sq ((i : ℝ) * Real.pi / L)
  linear_combination (r ^ 2 * Real.sin ((i : ℝ) * Real.pi / L) ^ 2) * h1 + r ^ 2 * h2

/-- Witness for C6 at the first vertex of a small sphere. -/
theorem C6_vertices_on_sphere_witness :
    (mkVertex 2 1 1 0 0 ∈ panoVerts 2 1 1) ∧
    (mkVertex 2 1 1 0 0).x ^ 2 + (mkVertex 2 1 1 0 0).y ^ 2 +
      (mkVertex 2 1 1 0 0).z ^ 2 = (2 : ℝ) ^ 2 := by
  have hmem : mkVertex 2 1 1 0 0 ∈ panoVerts 2 1 1 := by
    unfold panoVerts
    simp only [List.mem_flatMap, List.mem_map, List.mem_range]
    exact ⟨0, by omega, 0, by omega, rfl⟩
  exact ⟨hmem, C6_vertices_on_sphere 2 1 1 _ hmem⟩

/-- C7: with `latSegments = lonSegments = 40` and radius 2, every vertex of
the `i = 0` ring is the north pole `(0, 2, 0)` and every vertex of the
`i = 40` ring is the south pole `(0, -2, 0)` (exact in the real-number
idealization), for every longitude index `j ≤ 40`. -/
theorem C7_pole_vertices (j : ℕ) (hj : j ≤ 40) :
    mkVertex 2 40 40 0 j ∈ panoVerts 2 40 40 ∧
    mkVertex 2 40 40 40 j ∈ panoVerts 2 40 40 ∧
    (mkVertex 2 40 40 0 j).x = 0 ∧ (mkVertex 2 40 40 0 j).y = 2 ∧
    (mkVertex 2 40 40 0 j).z = 0 ∧
    (mkVertex 2 40 40 40 j).x = 0 ∧ (mkVertex 2 40 40 40 j).y = -2 ∧
    (mkVertex 2 40 40 40 j).z = 0 := by
  have hth0 : ((0 : ℕ) : ℝ) * Real.pi / ((40 : ℕ) : ℝ) = 0 := by
    push_cast
    ring
  have hthL : ((40 : ℕ) : ℝ) * Real.pi / ((40 : ℕ) : ℝ) = Real.pi := by
    push_cast
    rw [mul_comm]
    exact mul_div_cancel_right₀ _ (by norm_num)
  refine ⟨?_, ?_, ?_, ?_, ?_, ?_, ?_, ?_⟩
  · unfold panoVerts
    simp only [List.mem_flatMap, List.mem_map, List.mem_range]
    exact ⟨0, by omega, j, by omega, rfl⟩
  · unfold panoVerts
    simp only [List.mem_flatMap, List.mem_map, List.mem_range]
    exact ⟨40, by omega, j, by omega, rfl⟩
  · show Real.sin ((j : ℝ) * 2 * Real.pi / ((40 : ℕ) : ℝ)) *
        Real.sin (((0 : ℕ) : ℝ) * Real.pi / ((40 : ℕ) : ℝ)) * 2 = 0
    rw [hth0, Real.sin_zero, mul_zero, zero_mul]
  · show Real.cos (((0 : ℕ) : ℝ) * Real.pi / ((40 : ℕ) : ℝ)) * 2 = 2
    rw [hth0, Real.cos_zero, one_mul]
  · show -Real.cos ((j : ℝ) * 2 * Real.pi / ((40 : ℕ) : ℝ)) *
        Real.sin (((0 : ℕ) : ℝ) * Real.pi / ((40 : ℕ) : ℝ)) * 2 = 0
    rw [hth0, Real.sin_zero, mul_zero, zero_mul]
  · show Real.sin ((j : ℝ) * 2 * Real.pi / ((40 : ℕ) : ℝ)) *
        Real.sin (((40 : ℕ) : ℝ) * Real.pi / ((40 : ℕ) : ℝ)) * 2 = 0
    rw [hthL, Real.sin_pi, mul_zero, zero_mul]
  · show Real.cos (((40 : ℕ) : ℝ) * Real.pi / ((40 : ℕ) : ℝ)) * 2 = -2
    rw [hthL, Real.cos_pi]
    norm_num
  · show -Real.cos ((j : ℝ) * 2 * Real.pi / ((40 : ℕ) : ℝ)) *
        Real.sin (((40 : ℕ) : ℝ) * Real.pi / ((40 : ℕ) : ℝ)) * 2 = 0
    rw [hthL, Real.sin_pi, mul_zero, zero_mul]

/-- Witness for C7 at longitude index 0. -/
theorem C7_pole_vertices_witness :
    ((0 : ℕ) ≤ 40) ∧
    (mkVertex 2 40 40 0 0 ∈ panoVerts 2 40 40 ∧
     mkVertex 2 40 40 40 0 ∈ panoVerts 2 40 40 ∧
     (mkVertex 2 40 40 0 0).x = 0 ∧ (mkVertex 2 40 40 0 0).y = 2 ∧
     (mkVertex 2 40 40 0 0).z = 0 ∧
     (mkVertex 2 40 40 40 0).x = 0 ∧ (mkVertex 2 40 40 40 0).y = -2 ∧
     (mkVertex 2 40 40 40 0).z = 0) :=
  ⟨by decide, C7_pole_vertices 0 (by decide)⟩

/-- C8: the texture handle is allocated exactly once, by the constructor;
after any event history the instance still holds that handle, and a later
load-success binds it and uploads into it without allocating any texture. -/
theorem C8_texture_allocated_once {Mat Img : Type} (es : List (Event Mat Img))
    (img : Img) :
    (List.filter isCreateTexture (initTrace Mat Img)).length = 1 ∧
    GLCmd.createTexture (initState Img).texture ∈ initTrace Mat Img ∧
    (runEvents (initState Img) es).texture = (initState Img).texture ∧
    GLCmd.bindTexture (initState Img).texture
      ∈ (setImageLoad Mat (runEvents (initState Img) es) img).2.1 ∧
    GLCmd.texImage2D 0 PixelFormat.rgb PixelFormat.rgb GLType.unsignedByte img
      ∈ (setImageLoad Mat (runEvents (initState Img) es) img).2.1 ∧
    List.filter isCreateTexture
      (setImageLoad Mat (runEvents (initState Img) es) img).2.1 = [] ∧
    (setImageLoad Mat (runEvents (initState Img) es) img).1.texture =
      (initState Img).texture := by
  have htex : (runEvents (initState Img) es).texture = (initState Img).texture :=
    (runEvents_preserves_fields es (initState Img)).1
  refine ⟨?_, ?_, htex, ?_, ?_, ?_, htex⟩
  · rfl
  · unfold initTrace initState
    simp
  · simp [setImageLoad, htex]
  · simp [setImageLoad]
  · rfl

end Panorama
